import Mathlib

/-!
# Verification of the LeetCodeBot thread reconciliation / registry logic

Shallow embedding of the thread-reconciliation core of the repository:

* `src/core/problem_threads.py` — `ProblemThreadsManager` (registry + reconciler),
* `src/cogs/leetcode.py` — `on_ready` task start and `parse_problem_desc`,
* `src/db/problem.py` and `src/patch_db.py` — the Problem ORM model and migration,
* `src/utils/embed_presenters.py` — `get_difficulty_str_repr`.

Python strings are modelled as `String` (or `List Char` where character
slicing matters), machine integers as `Nat`, SQL tables as lists of rows in
insertion order (`.first()` = `List.find?`), Python dict caches as functions
`Nat → Option _`, and the chat platform (an external collaborator per the
spec) as an explicit channel map.  Exceptions become an error type threaded
through explicit state passing: every stateful operation returns the
(possibly mutated) state together with an `Except` result, mirroring the
in-place mutation of the Python objects.
-/

/-- Thread-creation outcome enum.  Modelled from the spec: `models/leetcode.py`
(`ThreadCreationEnum`) is not under `src/`; the spec and the return sites of
`reopen_or_create_problem_thread` use exactly the two statuses CREATE and
REOPEN. -/
inductive ThreadCreationEnum where
  | CREATE
  | REOPEN
deriving DecidableEq, Repr

/-- Errors raised by the manager.  `forumChannelNotFound` models the
`ForumChannelNotFound` exception (from `utils/custom_exceptions`, not under
`src/`; its two raise sites in `src/core/problem_threads.py` use the same
exception class with different messages, so the message is carried).
`valueError` models Python `ValueError`, `assertionError` a failing
`assert`. -/
inductive BotError where
  | forumChannelNotFound (msg : String)
  | valueError (msg : String)
  | assertionError
deriving DecidableEq, Repr

/-- Row of the `GuildForumChannel` ORM table.  Modelled from the spec:
`db/thread_channel.py` is not under `src/`; the spec describes one row per
guild (guild id unique) holding the configured channel id, and
`src/core/problem_threads.py` constructs it with `guild_id` and `channel_id`
and reads a database primary key `id`. -/
structure GuildForumChannel where
  id : Nat
  guild_id : Nat
  channel_id : Nat
deriving DecidableEq, Repr

/-- Row of the `ProblemThreads` ORM table.  Modelled from the spec:
`db/problem_threads.py` is not under `src/`; the spec describes one row per
created thread (unique thread id, foreign keys to problem and channel
config), and `src/core/problem_threads.py` constructs it with exactly these
three fields. -/
structure ProblemThreads where
  thread_id : Nat
  problem_db_id : Nat
  forum_channel_db_id : Nat
deriving DecidableEq, Repr

/-- The `Problem` ORM class of `src/db/problem.py`, field for field:
`id` (primary key), `title`, `problem_id` (unique), `url`, `difficulty`
(ordinal), `description` (nullable). -/
structure Problem where
  id : Nat
  title : String
  problem_id : Nat
  url : String
  difficulty : Nat
  description : Option String
deriving DecidableEq, Repr

/-- Mapped attribute names of the `Problem` ORM class in `src/db/problem.py`
(the relationship `tags` aside). -/
def problem_model_columns : List String :=
  ["id", "title", "problem_id", "url", "difficulty", "description"]

/-- Columns of the `Problem` ORM class declared with `unique=True` in
`src/db/problem.py`. -/
def problem_unique_columns : List String := ["problem_id"]

/-- Column added to the `problems` SQL table by the migration script
`src/patch_db.py` (SQL level only; the ORM class maps no such attribute). -/
def patch_db_added_columns : List String := ["premium"]

/-- Attribute names read off the problem object by `_create_thread` in
`src/core/problem_threads.py` (lines 226-263): `problem_frontend_id` for the
log line, the title and the registry write; `title` and `url` for the thread
title and body; `premium` for the disclaimer; `difficulty` for the tag. -/
def create_thread_problem_reads : List String :=
  ["problem_frontend_id", "title", "url", "premium", "difficulty"]

/-- The problem record as consumed by the thread reconciler.  Modelled from
the spec: the spec's data model gives a Problem an external numeric id, a
title, a URL, a difficulty ordinal and a premium flag, and
`src/core/problem_threads.py` reads exactly the attributes
`problem_frontend_id`, `title`, `url`, `premium`, `difficulty` and the
database key `id`.  (The ORM class in `src/db/problem.py` maps neither
`premium` nor the name `problem_frontend_id`; that mismatch is settled
separately, and the reconciler is verified over the record its own reads
require.) -/
structure RuntimeProblem where
  id : Nat
  problem_frontend_id : Nat
  title : String
  url : String
  difficulty : Nat
  premium : Bool
deriving DecidableEq, Repr

/-- A channel object on the chat platform as seen through channel
resolution.  Modelled from the spec: the platform SDK is an external
collaborator; a channel is a forum (belonging to a guild, carrying the list
of available tag names), a thread, or some other channel type. -/
inductive PlatformChannel where
  | forum (guild_id : Nat) (tags : List String)
  | thread
  | other
deriving DecidableEq, Repr

/-- Chat-platform state: a map from channel/thread id to the live channel
object, plus the id the platform will hand out for the next created thread.
Modelled from the spec (the platform is an external collaborator). -/
structure Platform where
  channels : Nat → Option PlatformChannel
  next_thread_id : Nat

/-- `utils/discord_utils.try_get_channel` is not under `src/`.  Modelled from
the spec: "attempt to resolve its thread id to a live thread on the
platform" / "resolve the configured channel id to a live forum-type channel
on the chat platform" — a lookup in the platform's channel map, `none` when
resolution fails. -/
def try_get_channel (pf : Platform) (channel_id : Nat) : Option PlatformChannel :=
  pf.channels channel_id

/-- `ForumChannel.create_tag` on the platform: adds a tag name to a forum
channel's available tags.  Modelled from the spec ("create any missing
ones"); the SDK call returns after the platform-side channel has the new
tag. -/
def create_tag (pf : Platform) (channel_id : Nat) (tag_name : String) : Platform :=
  match pf.channels channel_id with
  | some (.forum g tags) =>
      { pf with channels := fun k =>
          if k = channel_id then some (.forum g (tags ++ [tag_name])) else pf.channels k }
  | _ => pf

/-- The thread object returned by the platform's `create_thread`, with the
data the bot supplied: title, first-message content, and the applied tag
names. -/
structure CreatedThread where
  thread_id : Nat
  name : String
  content : String
  applied_tags : List String
deriving DecidableEq, Repr

/-- The thread part of `reopen_or_create_problem_thread`'s return value:
either the freshly created thread-with-message or the reopened live
thread. -/
inductive ThreadResult where
  | created (t : CreatedThread)
  | reopened (thread_id : Nat)
deriving DecidableEq, Repr

/-- State of `ProblemThreadsManager` (src/core/problem_threads.py) together
with its database: the two persistent tables (lists of rows in insertion
order, `.first()` = first match), the two in-memory dict caches
(`forum_channels : guild_id → row`, `problem_threads : thread_id → row`),
the problem store consulted through `LeetCodeProblemManager`, and the next
autoincrement key for `GuildForumChannel` rows. -/
structure ManagerState where
  db_forum_channels : List GuildForumChannel
  db_problem_threads : List ProblemThreads
  cache_forum_channels : Nat → Option GuildForumChannel
  cache_problem_threads : Nat → Option ProblemThreads
  problems : List RuntimeProblem
  next_row_id : Nat

/-- Combined world: the manager-plus-database state and the chat-platform
state. -/
structure World where
  mgr : ManagerState
  platform : Platform

/-- `LeetCodeProblemManager.get_problem_with_frontend_id` restricted to the
problem store.  Modelled from the spec: `core/leetcode_problem.py` is not
under `src/`; the spec's fetcher contract is `by_id(id) -> Problem+tags|absent`,
consulting the store first (the external-API fallback on a miss is outside
the reconciliation state modelled here). -/
def get_problem_with_frontend_id (s : ManagerState) (fid : Nat) : Option RuntimeProblem :=
  s.problems.find? (fun p => p.problem_frontend_id == fid)

/-- `ProblemThreadsManager.get_forum_channel` (lines 74-88): cache lookup by
guild id first, then a database query. -/
def get_forum_channel (s : ManagerState) (guild_id : Nat) : Option GuildForumChannel :=
  match s.cache_forum_channels guild_id with
  | some res => some res
  | none => s.db_forum_channels.find? (fun c => c.guild_id == guild_id)

/-- `ProblemThreadsManager.get_thread_by_thread_id` (lines 90-103): cache
lookup by thread id first, then a database query. -/
def get_thread_by_thread_id (s : ManagerState) (thread_id : Nat) : Option ProblemThreads :=
  match s.cache_problem_threads thread_id with
  | some res => some res
  | none => s.db_problem_threads.find? (fun t => t.thread_id == thread_id)

/-- `ProblemThreadsManager.get_thread_by_problem_id` (lines 105-135):
resolves the problem by frontend id, then queries the `GuildForumChannel`
table and the `ProblemThreads` table directly from the database (this read
does not consult the in-memory caches). -/
def get_thread_by_problem_id (s : ManagerState) (problem_frontend_id guild_id : Nat) :
    Option ProblemThreads :=
  match get_problem_with_frontend_id s problem_frontend_id with
  | none => none
  | some problem =>
    match s.db_forum_channels.find? (fun c => c.guild_id == guild_id) with
    | none => none
    | some forum_channel =>
      s.db_problem_threads.find? (fun t =>
        t.problem_db_id == problem.id && t.forum_channel_db_id == forum_channel.id)

/-- Replace the first row with the given guild id (SQLAlchemy mutates the
row object returned by `.first()` in place). -/
def replaceFirstFC (l : List GuildForumChannel) (guild_id : Nat)
    (fc : GuildForumChannel) : List GuildForumChannel :=
  match l with
  | [] => []
  | c :: rest =>
    if c.guild_id == guild_id then fc :: rest else c :: replaceFirstFC rest guild_id fc

/-- `ProblemThreadsManager.add_forum_channel_to_db` (lines 54-72): fetch the
guild's row; overwrite its channel id if present, else insert a fresh row;
commit; then put the row in the cache. -/
def add_forum_channel_to_db (s : ManagerState) (guild_id channel_id : Nat) : ManagerState :=
  match s.db_forum_channels.find? (fun c => c.guild_id == guild_id) with
  | some forum_channel =>
    let fc := { forum_channel with channel_id := channel_id }
    { s with
      db_forum_channels := replaceFirstFC s.db_forum_channels guild_id fc,
      cache_forum_channels := fun k =>
        if k = guild_id then some fc else s.cache_forum_channels k }
  | none =>
    let fc : GuildForumChannel := ⟨s.next_row_id, guild_id, channel_id⟩
    { s with
      db_forum_channels := s.db_forum_channels ++ [fc],
      next_row_id := s.next_row_id + 1,
      cache_forum_channels := fun k =>
        if k = guild_id then some fc else s.cache_forum_channels k }

/-- `ProblemThreadsManager.delete_thread_from_db` (lines 207-217): fetch the
row by thread id; if present, delete it from the table, commit, and drop the
cache entry. -/
def delete_thread_from_db (s : ManagerState) (thread_id : Nat) : ManagerState :=
  match s.db_problem_threads.find? (fun t => t.thread_id == thread_id) with
  | none => s
  | some _ =>
    { s with
      db_problem_threads := s.db_problem_threads.eraseP (fun t => t.thread_id == thread_id),
      cache_problem_threads := fun k =>
        if k = thread_id then none else s.cache_problem_threads k }

/-- `ProblemThreadsManager.create_thread_instance` (lines 158-180): raise
`ForumChannelNotFound` when the guild has no configured channel, return
nothing when the problem is unknown, else build the `ProblemThreads` row. -/
def create_thread_instance (s : ManagerState) (problem_frontend_id guild_id thread_id : Nat) :
    Except BotError (Option ProblemThreads) :=
  match get_forum_channel s guild_id with
  | none => .error (.forumChannelNotFound
      ("Forum channel for guild " ++ toString guild_id ++ " not found."))
  | some forum_channel =>
    match get_problem_with_frontend_id s problem_frontend_id with
    | none => .ok none
    | some problem => .ok (some ⟨thread_id, problem.id, forum_channel.id⟩)

/-- `ProblemThreadsManager.create_thread_in_db` (lines 137-156): build the
row (ValueError when it cannot be built), insert it into the table, read it
back through `get_thread_by_thread_id` (asserting it is there), then write
that row into the cache. -/
def create_thread_in_db (s : ManagerState) (problem_frontend_id guild_id thread_id : Nat) :
    ManagerState × Except BotError Unit :=
  match create_thread_instance s problem_frontend_id guild_id thread_id with
  | .error e => (s, .error e)
  | .ok none => (s, .error (.valueError
      ("Could not create ProblemThreads instance for problem ID "
        ++ toString problem_frontend_id ++ " in guild " ++ toString guild_id
        ++ " with thread ID " ++ toString thread_id ++ ".")))
  | .ok (some inst) =>
    let s1 := { s with db_problem_threads := s.db_problem_threads ++ [inst] }
    match get_thread_by_thread_id s1 thread_id with
    | none => (s1, .error .assertionError)
    | some problem_thread =>
      ({ s1 with cache_problem_threads := fun k =>
          if k = thread_id then some problem_thread else s1.cache_problem_threads k },
       .ok ())

/-- `ProblemDifficulity.from_db_repr`.  Modelled from the spec:
`models/leetcode.py` is not under `src/`; the spec stores the difficulty
enum Easy/Medium/Hard as an ordinal, here 1/2/3. -/
def difficulty_from_db_repr : Nat → Option String
  | 1 => some "Easy"
  | 2 => some "Medium"
  | 3 => some "Hard"
  | _ => none

/-- `get_difficulty_str_repr` from `src/utils/embed_presenters.py` (lines
11-19): convert the ordinal, falling back to "Unknown" on failure. -/
def get_difficulty_str_repr (difficulty_db_repr : Nat) : String :=
  (difficulty_from_db_repr difficulty_db_repr).getD "Unknown"

/-- The four canonical forum tags ensured by `_create_thread` (the Python
set literal, in source order). -/
def canonical_tags : List String := ["LeetCode", "Easy", "Medium", "Hard"]

/-- The premium disclaimer appended to the thread body for premium-only
problems (`src/core/problem_threads.py` lines 231-234). -/
def premium_disclaimer : String :=
  "This problem is premium only, so there is no description available."

/-- `ProblemThreadsManager._create_thread` (lines 219-270), on the channel
with the given id.  The thread title is `f"{problem_frontend_id}. {title}"`;
the body is the URL plus a newline, plus the disclaimer when the problem is
premium.  `available_tags` is captured from the channel object once, before
the missing canonical tags are created on the platform (line 238); the
applied tags are filtered from that captured snapshot (line 263), so
newly created tags are not among them.  The thread is created on the
platform (receiving the platform's next thread id), then recorded through
`create_thread_in_db` under the channel's guild.  The embed attached to the
first message is presentation (out of the spec's modelled scope) and is not
modelled.  The `tags` argument (the problem's topic tags) feeds only that
embed. -/
def create_thread_impl (w : World) (channel_id : Nat) (problem : RuntimeProblem)
    (_tags : List String) : World × Except BotError CreatedThread :=
  match w.platform.channels channel_id with
  | some (.forum channel_guild_id available_tag_names) =>
    let thread_name := toString problem.problem_frontend_id ++ ". " ++ problem.title
    let thread_content :=
      problem.url ++ "\n" ++ (if problem.premium then premium_disclaimer else "")
    let tags_to_create :=
      canonical_tags.filter (fun t => ¬ available_tag_names.contains t)
    let pf1 := tags_to_create.foldl (fun pf t => create_tag pf channel_id t) w.platform
    let tags_to_assign : List String := ["LeetCode", get_difficulty_str_repr problem.difficulty]
    let applied := available_tag_names.filter (fun t => tags_to_assign.contains t)
    let tid := pf1.next_thread_id
    let pf2 : Platform :=
      { channels := fun k => if k = tid then some .thread else pf1.channels k,
        next_thread_id := tid + 1 }
    let t : CreatedThread := ⟨tid, thread_name, thread_content, applied⟩
    let res := create_thread_in_db w.mgr problem.problem_frontend_id channel_guild_id tid
    ({ mgr := res.1, platform := pf2 }, res.2.map (fun _ => t))
  | _ => (w, .error .assertionError)

/-- Message of the `ForumChannelNotFound` raised when no forum channel is
configured for the guild (lines 293-296; the source's "Fourm" typo is
preserved and its one contraction is expanded). -/
def not_configured_msg : String :=
  "The bot does not know which Fourm Channel should the problem be created! Please use /set_thread_channel first to set the Fourm Channel!"

/-- Message of the `ForumChannelNotFound` raised when the configured channel
id does not resolve to a live forum channel (lines 303-306). -/
def invalid_channel_msg : String :=
  "Something went wrong! The forum channel is not found or not a valid forum channel. Contact the developer for help."

/-- `ProblemThreadsManager.reopen_or_create_problem_thread` (lines 272-344):
1. guild's configured channel from the registry, else `ForumChannelNotFound`;
2. resolve it on the platform; not a live forum channel — `ForumChannelNotFound`
   with the distinct invalid-channel message;
3. look up the recorded thread for (problem, guild); none — create, CREATE;
4. resolve the recorded thread id on the platform; unresolved — delete the
   stale record, create anew, CREATE; resolved — return it, REOPEN (the
   source then asserts the resolved channel is a thread). -/
def reopen_or_create_problem_thread (w : World) (problem : RuntimeProblem)
    (tags : List String) (guild_id : Nat) (_is_daily : Bool) :
    World × Except BotError (ThreadResult × ThreadCreationEnum) :=
  match get_forum_channel w.mgr guild_id with
  | none => (w, .error (.forumChannelNotFound not_configured_msg))
  | some channel =>
    match try_get_channel w.platform channel.channel_id with
    | some (.forum _ _) =>
      match get_thread_by_problem_id w.mgr problem.problem_frontend_id guild_id with
      | none =>
        let res := create_thread_impl w channel.channel_id problem tags
        (res.1, res.2.map (fun t => (.created t, .CREATE)))
      | some forum_thread =>
        match try_get_channel w.platform forum_thread.thread_id with
        | none =>
          let wdel := { w with mgr := delete_thread_from_db w.mgr forum_thread.thread_id }
          let res := create_thread_impl wdel channel.channel_id problem tags
          (res.1, res.2.map (fun t => (.created t, .CREATE)))
        | some .thread => (w, .ok (.reopened forum_thread.thread_id, .REOPEN))
        | some _ => (w, .error .assertionError)
    | _ => (w, .error (.forumChannelNotFound invalid_channel_msg))

/-- State read by the `on_ready` listener of `src/cogs/leetcode.py`: the
`debug` flag (from `config/secrets`, not under `src/`) and whether the
weekly cache-refresh task is already running. -/
structure BotReadyState where
  debug : Bool
  weekly_running : Bool
deriving DecidableEq, Repr

/-- `LeetCode.on_ready` (lines 26-33): start the weekly cache-refresh task
when debug is off and the task is not already running.  Returns the new
state and whether `start()` was called. -/
def on_ready (s : BotReadyState) : BotReadyState × Bool :=
  if !s.debug && !s.weekly_running then ({ s with weekly_running := true }, true)
  else (s, false)

/-- The description shown when a problem has no description
(`src/cogs/leetcode.py` line 40). -/
def no_description_msg : List Char := "No description available.".data

/-- `LeetCode.parse_problem_desc` (lines 35-41), with Python strings
modelled as lists of code points and `preview_len` (from `config/constants`,
not under `src/`) as a parameter: empty content gives the placeholder, else
the first `preview_len` characters with "..." appended exactly when the
content is longer than `preview_len`. -/
def parse_problem_desc (preview_len : Nat) (content : List Char) : List Char :=
  if content.isEmpty then no_description_msg
  else content.take preview_len ++ (if preview_len < content.length then "...".data else [])

/-- Cache coherence for the guild-to-forum-channel registry: every cached
entry agrees with the row the persistent store returns for that guild. -/
def fc_agree (s : ManagerState) : Prop :=
  ∀ g c, s.cache_forum_channels g = some c →
    s.db_forum_channels.find? (fun x => x.guild_id == g) = some c

/-- Cache coherence for the thread registry: every cached entry agrees with
the row the persistent store returns for that thread id. -/
def pt_agree (s : ManagerState) : Prop :=
  ∀ tid t, s.cache_problem_threads tid = some t →
    s.db_problem_threads.find? (fun x => x.thread_id == tid) = some t

/-- The spec's running example problem: external id 1, "Two Sum", Easy,
not premium. -/
def pTwoSum : RuntimeProblem :=
  ⟨1, 1, "Two Sum", "https://leetcode.com/problems/two-sum/", 1, false⟩

/-- Registry row: guild 42 configured with forum channel 100. -/
def fcRow : GuildForumChannel := ⟨1, 42, 100⟩

/-- Registry row: thread 500 recorded for problem row 1 in channel row 1. -/
def ptRow : ProblemThreads := ⟨500, 1, 1⟩

/-- Manager state with guild 42 configured, problem 1 stored, and thread
500 recorded (consistently in store and caches). -/
def mgrLive : ManagerState where
  db_forum_channels := [fcRow]
  db_problem_threads := [ptRow]
  cache_forum_channels := fun k => if k = 42 then some fcRow else none
  cache_problem_threads := fun k => if k = 500 then some ptRow else none
  problems := [pTwoSum]
  next_row_id := 2

/-- Platform where channel 100 is a forum of guild 42 carrying all four
canonical tags and thread 500 is live. -/
def platformLive : Platform where
  channels := fun k =>
    if k = 100 then some (.forum 42 canonical_tags)
    else if k = 500 then some .thread else none
  next_thread_id := 1000

/-- Happy-path world: recorded thread 500 is live. -/
def worldLive : World := ⟨mgrLive, platformLive⟩

/-- Platform where channel 100 is a live forum but thread 500 has vanished. -/
def platformStale : Platform where
  channels := fun k => if k = 100 then some (.forum 42 canonical_tags) else none
  next_thread_id := 1000

/-- Stale-thread world: thread 500 is recorded but no longer resolves. -/
def worldStale : World := ⟨mgrLive, platformStale⟩

/-- Entirely empty manager state. -/
def mgrEmpty : ManagerState :=
  ⟨[], [], fun _ => none, fun _ => none, [], 1⟩

/-- Platform with no channels at all. -/
def platformEmpty : Platform := ⟨fun _ => none, 1000⟩

/-- World with nothing configured. -/
def worldEmpty : World := ⟨mgrEmpty, platformEmpty⟩

/-- World where guild 42 has a configured channel id 100, but the platform
no longer resolves it (channel deleted). -/
def worldInvalid : World := ⟨mgrLive, platformEmpty⟩

/-- Manager state with guild 42 configured and problem 1 stored but no
thread recorded anywhere. -/
def mgrNoThread : ManagerState :=
  { mgrLive with db_problem_threads := [], cache_problem_threads := fun _ => none }

/-- Platform where channel 100 is a fresh forum of guild 42 with an empty
available-tag list. -/
def platformFresh : Platform where
  channels := fun k => if k = 100 then some (.forum 42 []) else none
  next_thread_id := 1000

/-- World for thread creation on a fresh forum channel that has none of the
canonical tags yet. -/
def worldFresh : World := ⟨mgrNoThread, platformFresh⟩

/-- Manager state whose thread cache holds the record for thread 500 of
(problem 1, guild 42) while the persistent `problem_threads` table is
empty. -/
def mgrCacheOnly : ManagerState where
  db_forum_channels := [fcRow]
  db_problem_threads := []
  cache_forum_channels := fun k => if k = 42 then some fcRow else none
  cache_problem_threads := fun k => if k = 500 then some ptRow else none
  problems := [pTwoSum]
  next_row_id := 2

/-- C3: for every guild with no configured forum channel, reconcile raises
`ForumChannelNotFound` with the not-configured message and leaves the whole
state (persistent tables, caches, platform) unchanged. -/
theorem reconcile_unconfigured_error_no_writes
    (w : World) (p : RuntimeProblem) (tags : List String) (g : Nat) (d : Bool)
    (h : get_forum_channel w.mgr g = none) :
    reopen_or_create_problem_thread w p tags g d
      = (w, .error (.forumChannelNotFound not_configured_msg)) := by
  simp only [reopen_or_create_problem_thread, h]

/-- Witness for C3: in the world with nothing configured, reconciling guild
7 fails with the not-configured error and the state is returned unchanged. -/
theorem reconcile_unconfigured_error_no_writes_witness :
    reopen_or_create_problem_thread worldEmpty pTwoSum [] 7 true
      = (worldEmpty, .error (.forumChannelNotFound not_configured_msg)) :=
  reconcile_unconfigured_error_no_writes worldEmpty pTwoSum [] 7 true rfl

/-- C6 (code bug): the `Problem` ORM class maps the external id under the
name `problem_id` (and declares it unique), maps no `premium` attribute (the
migration adds that column only at the SQL level), while `_create_thread`
reads the attributes `problem_frontend_id` and `premium` off every problem —
reads that are undefined on the mapped class. -/
theorem problem_model_missing_premium_and_frontend_id :
    "problem_id" ∈ problem_model_columns ∧
    "problem_id" ∈ problem_unique_columns ∧
    "premium" ∉ problem_model_columns ∧
    "problem_frontend_id" ∉ problem_model_columns ∧
    "premium" ∈ create_thread_problem_reads ∧
    "problem_frontend_id" ∈ create_thread_problem_reads ∧
    "premium" ∈ patch_db_added_columns := by decide

/-- C9: on the ready event the weekly refresh task is started exactly when
debug mode is off and the task is not already running; in debug mode it is
never started and the state is untouched. -/
theorem on_ready_weekly_start_iff (s : BotReadyState) :
    ((on_ready s).2 = true ↔ (s.debug = false ∧ s.weekly_running = false)) ∧
    (s.debug = true → (on_ready s).2 = false ∧ (on_ready s).1 = s) := by
  rcases s with ⟨d, r⟩
  cases d <;> cases r <;> simp [on_ready]

/-- Witness for C9: with debug on the task is not started; with debug off
and the task not yet running it is started. -/
theorem on_ready_weekly_start_iff_witness :
    (on_ready ⟨true, false⟩).2 = false ∧ (on_ready ⟨false, false⟩).2 = true :=
  ⟨((on_ready_weekly_start_iff ⟨true, false⟩).2 rfl).1,
   ((on_ready_weekly_start_iff ⟨false, false⟩).1).mpr ⟨rfl, rfl⟩⟩

/-- C10: `parse_problem_desc` returns the placeholder on empty content,
returns content unchanged when it is no longer than the preview length, and
otherwise returns the first `preview_len` characters followed by "...". -/
theorem parse_problem_desc_cases (preview_len : Nat) (content : List Char) :
    (content = [] → parse_problem_desc preview_len content = no_description_msg) ∧
    (content ≠ [] → content.length ≤ preview_len →
      parse_problem_desc preview_len content = content) ∧
    (content.length > preview_len →
      parse_problem_desc preview_len content = content.take preview_len ++ "...".data) := by
  refine ⟨fun h => by subst h; rfl, fun hne hlen => ?_, fun hgt => ?_⟩
  · cases content with
    | nil => exact absurd rfl hne
    | cons a l =>
      show (a :: l).take preview_len ++ _ = _
      rw [if_neg (by omega), List.take_of_length_le hlen, List.append_nil]
  · cases content with
    | nil => simp at hgt
    | cons a l =>
      show (a :: l).take preview_len ++ _ = _
      rw [if_pos (by omega)]

/-- Witness for C10: the three cases at concrete inputs of preview length 3. -/
theorem parse_problem_desc_cases_witness :
    parse_problem_desc 3 [] = no_description_msg ∧
    parse_problem_desc 3 "ab".data = "ab".data ∧
    parse_problem_desc 3 "abcde".data = "abc...".data := by
  refine ⟨(parse_problem_desc_cases 3 []).1 rfl,
          (parse_problem_desc_cases 3 "ab".data).2.1 (by decide) (by decide), ?_⟩
  rw [(parse_problem_desc_cases 3 "abcde".data).2.2 (by decide)]
  decide

/-- Shared helper: when the registry has a channel that resolves to a live
forum and the recorded thread resolves to a live thread, reconcile reopens
it and returns the state unchanged. -/
theorem reopen_of_live_thread
    (w : World) (p : RuntimeProblem) (tags : List String) (g : Nat) (d : Bool)
    (c : GuildForumChannel) (cg : Nat) (ctags : List String) (ft : ProblemThreads)
    (h1 : get_forum_channel w.mgr g = some c)
    (h2 : try_get_channel w.platform c.channel_id = some (.forum cg ctags))
    (h3 : get_thread_by_problem_id w.mgr p.problem_frontend_id g = some ft)
    (h4 : try_get_channel w.platform ft.thread_id = some .thread) :
    reopen_or_create_problem_thread w p tags g d
      = (w, .ok (.reopened ft.thread_id, .REOPEN)) := by
  simp only [reopen_or_create_problem_thread, h1, h2, h3, h4]

/-- C1: with a configured channel resolving to a live forum and a recorded
thread resolving to a live thread, reconcile returns that thread with
REOPEN and the state unchanged, and a second call under the same conditions
again returns REOPEN with no additional writes. -/
theorem reconcile_live_thread_reopen_idempotent
    (w : World) (p : RuntimeProblem) (tags : List String) (g : Nat) (d : Bool)
    (c : GuildForumChannel) (cg : Nat) (ctags : List String) (ft : ProblemThreads)
    (h1 : get_forum_channel w.mgr g = some c)
    (h2 : try_get_channel w.platform c.channel_id = some (.forum cg ctags))
    (h3 : get_thread_by_problem_id w.mgr p.problem_frontend_id g = some ft)
    (h4 : try_get_channel w.platform ft.thread_id = some .thread) :
    reopen_or_create_problem_thread w p tags g d
      = (w, .ok (.reopened ft.thread_id, .REOPEN)) ∧
    reopen_or_create_problem_thread
      (reopen_or_create_problem_thread w p tags g d).1 p tags g d
      = (w, .ok (.reopened ft.thread_id, .REOPEN)) := by
  have main := reopen_of_live_thread w p tags g d c cg ctags ft h1 h2 h3 h4
  exact ⟨main, by rw [main]; exact main⟩

/-- Witness for C1: in the happy-path world, reconciling problem 1 in guild
42 reopens live thread 500 twice with no writes. -/
theorem reconcile_live_thread_reopen_idempotent_witness :
    reopen_or_create_problem_thread worldLive pTwoSum [] 42 true
      = (worldLive, .ok (.reopened 500, .REOPEN)) ∧
    reopen_or_create_problem_thread
      (reopen_or_create_problem_thread worldLive pTwoSum [] 42 true).1 pTwoSum [] 42 true
      = (worldLive, .ok (.reopened 500, .REOPEN)) :=
  reconcile_live_thread_reopen_idempotent worldLive pTwoSum [] 42 true
    fcRow 42 canonical_tags ptRow rfl rfl rfl rfl

/-- C5: with a configured channel whose id does not resolve to a live forum
channel on the platform, reconcile fails with the invalid-channel error —
an error value distinct from the not-configured one — and the state is
unchanged. -/
theorem reconcile_invalid_channel_distinct_error
    (w : World) (p : RuntimeProblem) (tags : List String) (g : Nat) (d : Bool)
    (c : GuildForumChannel)
    (h1 : get_forum_channel w.mgr g = some c)
    (h2 : ∀ cg ctags, try_get_channel w.platform c.channel_id ≠ some (.forum cg ctags)) :
    reopen_or_create_problem_thread w p tags g d
      = (w, .error (.forumChannelNotFound invalid_channel_msg)) ∧
    BotError.forumChannelNotFound invalid_channel_msg
      ≠ BotError.forumChannelNotFound not_configured_msg := by
  refine ⟨?_, by decide⟩
  simp only [reopen_or_create_problem_thread, h1]

/-- Witness for C5: guild 42 configured with channel 100, but the platform
resolves nothing at 100, so reconcile fails with the invalid-channel
error. -/
theorem reconcile_invalid_channel_distinct_error_witness :
    reopen_or_create_problem_thread worldInvalid pTwoSum [] 42 true
      = (worldInvalid, .error (.forumChannelNotFound invalid_channel_msg)) ∧
    BotError.forumChannelNotFound invalid_channel_msg
      ≠ BotError.forumChannelNotFound not_configured_msg :=
  reconcile_invalid_channel_distinct_error worldInvalid pTwoSum [] 42 true fcRow
    rfl (fun cg ctags h => by simp [worldInvalid, platformEmpty, try_get_channel] at h)

/-- C4 (code bug): creating the thread for the Easy problem on a fresh forum
channel with no available tags creates all four missing canonical tags on
the channel, yet the created thread carries no applied tags at all — the
applied tags are filtered from the tag list captured before the missing
tags were created, so the claimed {LeetCode, Easy} pair is not attached. -/
theorem create_thread_fresh_channel_applies_no_tags :
    (create_thread_impl worldFresh 100 pTwoSum []).2
      = .ok ⟨1000, "1. Two Sum", "https://leetcode.com/problems/two-sum/\n", []⟩ ∧
    (create_thread_impl worldFresh 100 pTwoSum []).1.platform.channels 100
      = some (.forum 42 canonical_tags) ∧
    get_difficulty_str_repr pTwoSum.difficulty = "Easy" := by
  refine ⟨?_, ?_, rfl⟩ <;> rfl

/-- C8 counterexample: `get_thread_by_problem_id` — the registry's read by
(problem, guild) — does not consult the cache before the store: in a state
whose thread cache holds exactly the matching record for (problem 1, guild
42) while the persistent table is empty, the read returns nothing (the
by-thread-id read, which is cache-first, does return the record). -/
theorem get_thread_by_problem_id_ignores_cache :
    mgrCacheOnly.cache_problem_threads 500 = some ptRow ∧
    ptRow.problem_db_id = pTwoSum.id ∧
    ptRow.forum_channel_db_id = fcRow.id ∧
    get_problem_with_frontend_id mgrCacheOnly 1 = some pTwoSum ∧
    mgrCacheOnly.db_forum_channels.find? (fun c => c.guild_id == 42) = some fcRow ∧
    get_thread_by_problem_id mgrCacheOnly 1 42 = none ∧
    get_thread_by_thread_id mgrCacheOnly 500 = some ptRow := by
  refine ⟨rfl, rfl, rfl, rfl, rfl, rfl, rfl⟩

/-- Helper: a successful `Except.map` comes from a successful source. -/
theorem except_map_ok {α β ε : Type} (f : α → β) (x : Except ε α) (b : β)
    (h : x.map f = .ok b) : ∃ a, x = .ok a ∧ b = f a := by
  cases x with
  | error e => exact Except.noConfusion h
  | ok a => exact ⟨a, rfl, (Except.ok.injEq _ _).mp h.symm⟩

/-- C7: whenever thread creation succeeds, the created thread's title is
exactly "{external_id}. {title}" and its body is the problem URL followed by
a newline, with the premium disclaimer appended exactly when the problem is
premium-only. -/
theorem created_thread_title_and_body
    (w : World) (cid : Nat) (p : RuntimeProblem) (tags : List String) (t : CreatedThread)
    (h : (create_thread_impl w cid p tags).2 = .ok t) :
    t.name = toString p.problem_frontend_id ++ ". " ++ p.title ∧
    t.content = p.url ++ "\n" ++ (if p.premium then premium_disclaimer else "") := by
  unfold create_thread_impl at h
  rcases hch : w.platform.channels cid with _ | ch
  · rw [hch] at h
    exact Except.noConfusion h
  · cases ch with
    | forum cg avail =>
      rw [hch] at h
      dsimp only at h
      obtain ⟨u, _, ht⟩ := except_map_ok _ _ _ h
      subst ht
      exact ⟨rfl, rfl⟩
    | thread =>
      rw [hch] at h
      exact Except.noConfusion h
    | other =>
      rw [hch] at h
      exact Except.noConfusion h

/-- Witness for C7: creating the Two Sum thread in the happy-path world
yields the title "1. Two Sum" and the plain URL body (no disclaimer, the
problem not being premium). -/
theorem created_thread_title_and_body_witness :
    (create_thread_impl worldLive 100 pTwoSum []).2
      = .ok ⟨1000, "1. Two Sum", "https://leetcode.com/problems/two-sum/\n",
             ["LeetCode", "Easy"]⟩ ∧
    ("1. Two Sum" = toString pTwoSum.problem_frontend_id ++ ". " ++ pTwoSum.title ∧
     "https://leetcode.com/problems/two-sum/\n"
       = pTwoSum.url ++ "\n" ++ (if pTwoSum.premium then premium_disclaimer else "")) := by
  have h : (create_thread_impl worldLive 100 pTwoSum []).2
      = .ok ⟨1000, "1. Two Sum", "https://leetcode.com/problems/two-sum/\n",
             ["LeetCode", "Easy"]⟩ := by rfl
  exact ⟨h, created_thread_title_and_body worldLive 100 pTwoSum [] _ h⟩

/-- Helper: replacing the first row of a guild with a row of the same guild
makes the lookup for that guild return the replacement, provided a row for
the guild was found before. -/
theorem find?_replaceFirstFC_hit (l : List GuildForumChannel) (g : Nat)
    (fc fc' : GuildForumChannel)
    (h : l.find? (fun x => x.guild_id == g) = some fc) (hg : fc'.guild_id = g) :
    (replaceFirstFC l g fc').find? (fun x => x.guild_id == g) = some fc' := by
  induction l with
  | nil => exact Option.noConfusion h
  | cons a rest ih =>
    by_cases ha : a.guild_id = g
    · simp [replaceFirstFC, ha, List.find?_cons_of_pos, hg]
    · rw [List.find?_cons_of_neg _ (by simp [ha])] at h
      simp only [replaceFirstFC]
      rw [if_neg (by simp [ha])]
      rw [List.find?_cons_of_neg _ (by simp [ha])]
      exact ih h

/-- Helper: replacing the first row of guild `g` with a row of guild `g`
leaves lookups of every other guild unchanged. -/
theorem find?_replaceFirstFC_other (l : List GuildForumChannel) (g g2 : Nat)
    (fc' : GuildForumChannel) (hne : g2 ≠ g) (hg : fc'.guild_id = g) :
    (replaceFirstFC l g fc').find? (fun x => x.guild_id == g2)
      = l.find? (fun x => x.guild_id == g2) := by
  induction l with
  | nil => rfl
  | cons a rest ih =>
    by_cases ha : a.guild_id = g
    · simp only [replaceFirstFC]
      rw [if_pos (by simp [ha])]
      rw [List.find?_cons_of_neg _ (by simp [hg]; exact fun h => hne h.symm)]
      rw [List.find?_cons_of_neg _ (by simp [ha]; exact fun h => hne h.symm)]
    · simp only [replaceFirstFC]
      rw [if_neg (by simp [ha])]
      by_cases ha2 : a.guild_id = g2
      · rw [List.find?_cons_of_pos _ (by simp [ha2]), List.find?_cons_of_pos _ (by simp [ha2])]
      · rw [List.find?_cons_of_neg _ (by simp [ha2]), List.find?_cons_of_neg _ (by simp [ha2])]
        exact ih

/-- Helper: erasing the first row with one thread id does not change the
lookup of any other thread id. -/
theorem find?_eraseP_of_ne (l : List ProblemThreads) (tid tid2 : Nat)
    (hne : tid2 ≠ tid) :
    (l.eraseP (fun t => t.thread_id == tid)).find? (fun t => t.thread_id == tid2)
      = l.find? (fun t => t.thread_id == tid2) := by
  induction l with
  | nil => rfl
  | cons a rest ih =>
    by_cases ha : a.thread_id = tid
    · rw [List.eraseP_cons_of_pos (by simp [ha])]
      rw [List.find?_cons_of_neg _ (by simp [ha]; exact fun h => hne h.symm)]
    · rw [List.eraseP_cons_of_neg (by simp [ha])]
      by_cases ha2 : a.thread_id = tid2
      · rw [List.find?_cons_of_pos _ (by simp [ha2]), List.find?_cons_of_pos _ (by simp [ha2])]
      · rw [List.find?_cons_of_neg _ (by simp [ha2]), List.find?_cons_of_neg _ (by simp [ha2])]
        exact ih

/-- C8 (amended): the three mutating registry operations write through to
persistent storage and update the in-memory cache in the same step,
preserving cache/store agreement, and the two keyed reads (forum channel by
guild id, thread by thread id) consult the cache before the store.  (The
(guild, problem) read queries the store directly; see the counterexample.) -/
theorem registry_write_through_cache_coherent :
    (∀ s g cid, fc_agree s → fc_agree (add_forum_channel_to_db s g cid)) ∧
    (∀ s fid g tid, pt_agree s → pt_agree (create_thread_in_db s fid g tid).1) ∧
    (∀ s tid, pt_agree s → pt_agree (delete_thread_from_db s tid)) ∧
    (∀ s g c, s.cache_forum_channels g = some c → get_forum_channel s g = some c) ∧
    (∀ s tid t, s.cache_problem_threads tid = some t →
      get_thread_by_thread_id s tid = some t) := by
  refine ⟨?_, ?_, ?_, ?_, ?_⟩
  · -- add_forum_channel_to_db preserves agreement
    intro s g cid hA g2 c2 hc2
    rcases hf : s.db_forum_channels.find? (fun c => c.guild_id == g) with _ | fc
    · simp only [add_forum_channel_to_db, hf] at hc2 ⊢
      by_cases hg : g2 = g
      · subst hg
        rw [if_pos rfl] at hc2
        injection hc2 with hc2e
        subst hc2e
        rw [List.find?_append, hf]
        simp
      · rw [if_neg hg] at hc2
        rw [List.find?_append, hA g2 c2 hc2]
        rfl
    · simp only [add_forum_channel_to_db, hf] at hc2 ⊢
      have hfcg : fc.guild_id = g := by simpa using List.find?_some hf
      by_cases hg : g2 = g
      · subst hg
        rw [if_pos rfl] at hc2
        injection hc2 with hc2e
        subst hc2e
        exact find?_replaceFirstFC_hit _ _ fc _ hf hfcg
      · rw [if_neg hg] at hc2
        rw [find?_replaceFirstFC_other s.db_forum_channels g g2 ⟨fc.id, fc.guild_id, cid⟩ hg hfcg]
        exact hA g2 c2 hc2
  · -- create_thread_in_db preserves agreement
    intro s fid g tid hA tid2 t2 h2
    rcases hi : create_thread_instance s fid g tid with e | oinst
    · simp only [create_thread_in_db, hi] at h2 ⊢
      exact hA tid2 t2 h2
    · rcases oinst with _ | inst
      · simp only [create_thread_in_db, hi] at h2 ⊢
        exact hA tid2 t2 h2
      · rcases hg : get_thread_by_thread_id
            { s with db_problem_threads := s.db_problem_threads ++ [inst] } tid with _ | pt
        · simp only [create_thread_in_db, hi, hg] at h2 ⊢
          rw [List.find?_append, hA tid2 t2 h2]
          rfl
        · simp only [create_thread_in_db, hi, hg] at h2 ⊢
          by_cases ht : tid2 = tid
          · subst ht
            rw [if_pos rfl] at h2
            injection h2 with h2e
            subst h2e
            unfold get_thread_by_thread_id at hg
            dsimp only at hg
            rcases hc : s.cache_problem_threads tid2 with _ | pt0
            · rw [hc] at hg
              exact hg
            · rw [hc] at hg
              injection hg with hge
              subst hge
              rw [List.find?_append, hA tid2 pt0 hc]
              rfl
          · rw [if_neg ht] at h2
            rw [List.find?_append, hA tid2 t2 h2]
            rfl
  · -- delete_thread_from_db preserves agreement
    intro s tid hA tid2 t2 h2
    rcases hf : s.db_problem_threads.find? (fun t => t.thread_id == tid) with _ | x
    · simp only [delete_thread_from_db, hf] at h2 ⊢
      exact hA tid2 t2 h2
    · simp only [delete_thread_from_db, hf] at h2 ⊢
      by_cases ht : tid2 = tid
      · subst ht
        rw [if_pos rfl] at h2
        exact Option.noConfusion h2
      · rw [if_neg ht] at h2
        rw [find?_eraseP_of_ne _ _ _ ht]
        exact hA tid2 t2 h2
  · -- get_forum_channel is cache-first
    intro s g c h
    unfold get_forum_channel
    rw [h]
  · -- get_thread_by_thread_id is cache-first
    intro s tid t h
    unfold get_thread_by_thread_id
    rw [h]

/-- Witness for C8 (amended): agreement is preserved by deleting thread 500
from the happy-path manager state, and the cache-first read returns the
cached channel row of guild 42. -/
theorem registry_write_through_cache_coherent_witness :
    pt_agree (delete_thread_from_db mgrLive 500) ∧
    get_forum_channel mgrLive 42 = some fcRow := by
  have hA : pt_agree mgrLive := by
    intro tid t h
    by_cases ht : tid = 500
    · subst ht
      have : some ptRow = some t := h
      cases this
      rfl
    · simp [mgrLive, ht] at h
  exact ⟨registry_write_through_cache_coherent.2.2.1 mgrLive 500 hA,
         registry_write_through_cache_coherent.2.2.2.1 mgrLive 42 fcRow rfl⟩

/-- Helper: creating a tag never touches the platform's next thread id. -/
theorem create_tag_next_thread_id (pf : Platform) (cid : Nat) (a : String) :
    (create_tag pf cid a).next_thread_id = pf.next_thread_id := by
  unfold create_tag
  rcases h : pf.channels cid with _ | ch
  · rfl
  · cases ch <;> rfl

/-- Helper: creating a tag on one channel leaves every other channel
unchanged. -/
theorem create_tag_channels_other (pf : Platform) (cid : Nat) (a : String)
    (k : Nat) (hk : k ≠ cid) :
    (create_tag pf cid a).channels k = pf.channels k := by
  unfold create_tag
  rcases h : pf.channels cid with _ | ch
  · rfl
  · cases ch with
    | forum g tags =>
      dsimp only
      rw [if_neg hk]
    | thread => rfl
    | other => rfl

/-- Helper: creating a tag on a forum channel appends it to that channel's
available tags. -/
theorem create_tag_forum (pf : Platform) (cid : Nat) (a : String) (g : Nat)
    (ts : List String) (h : pf.channels cid = some (.forum g ts)) :
    (create_tag pf cid a).channels cid = some (.forum g (ts ++ [a])) := by
  unfold create_tag
  rw [h]
  dsimp only
  rw [if_pos rfl]

/-- Helper: folding tag creation over a channel keeps the next thread id,
keeps every other channel, and keeps the channel a forum of the same
guild. -/
theorem foldl_create_tag_spec (names : List String) (pf : Platform) (cid : Nat) :
    ((names.foldl (fun pf t => create_tag pf cid t) pf).next_thread_id
        = pf.next_thread_id) ∧
    (∀ k, k ≠ cid →
      (names.foldl (fun pf t => create_tag pf cid t) pf).channels k = pf.channels k) ∧
    (∀ g ts, pf.channels cid = some (.forum g ts) →
      ∃ ts2, (names.foldl (fun pf t => create_tag pf cid t) pf).channels cid
        = some (.forum g ts2)) := by
  induction names generalizing pf with
  | nil => exact ⟨rfl, fun _ _ => rfl, fun g ts h => ⟨ts, h⟩⟩
  | cons a rest ih =>
    refine ⟨?_, ?_, ?_⟩
    · rw [List.foldl_cons, (ih (create_tag pf cid a)).1, create_tag_next_thread_id]
    · intro k hk
      rw [List.foldl_cons, (ih (create_tag pf cid a)).2.1 k hk,
        create_tag_channels_other pf cid a k hk]
    · intro g ts h
      rw [List.foldl_cons]
      exact (ih (create_tag pf cid a)).2.2 g (ts ++ [a]) (create_tag_forum pf cid a g ts h)

/-- Helper: in a list of thread rows with pairwise distinct thread ids,
erasing by the thread id of a member removes exactly that member, and the
remainder is a sublist of the original. -/
theorem mem_eraseP_thread_id_unique {l : List ProblemThreads} {ft : ProblemThreads}
    (hnd : (l.map (fun t => t.thread_id)).Nodup) (hft : ft ∈ l) :
    ft ∉ l.eraseP (fun t => t.thread_id == ft.thread_id) ∧
    ∀ b ∈ l.eraseP (fun t => t.thread_id == ft.thread_id), b ∈ l := by
  obtain ⟨a, l1, l2, hl1, hpa, hl, herase⟩ :=
    @List.exists_of_eraseP ProblemThreads (fun t => t.thread_id == ft.thread_id)
      l ft hft (by simp)
  have hpa2 : a.thread_id = ft.thread_id := by simpa using hpa
  rw [herase, hl]
  rw [hl, List.map_append, List.map_cons] at hnd
  rw [List.nodup_append] at hnd
  have hnotl2 : a.thread_id ∉ l2.map (fun t => t.thread_id) :=
    (List.nodup_cons.mp hnd.2.1).1
  have hnotl1 : a.thread_id ∉ l1.map (fun t => t.thread_id) := by
    intro hmem
    exact hnd.2.2 hmem (List.mem_cons_self _ _)
  constructor
  · intro hmem
    rcases List.mem_append.mp hmem with h1 | h2
    · exact hnotl1 (hpa2 ▸ List.mem_map_of_mem (fun t => t.thread_id) h1)
    · exact hnotl2 (hpa2 ▸ List.mem_map_of_mem (fun t => t.thread_id) h2)
  · intro b hb
    rcases List.mem_append.mp hb with h1 | h2
    · exact List.mem_append.mpr (Or.inl h1)
    · exact List.mem_append.mpr (Or.inr (List.mem_cons_of_mem a h2))

/-- Helper: explicit result of a successful thread creation — the thread is
created on the platform under the platform's next thread id, missing
canonical tags are created on the forum channel, the row is appended to the
thread table and written to the cache, and CREATE-side data (title, body,
applied tags from the pre-creation snapshot) is returned. -/
theorem create_thread_impl_ok
    (w : World) (cid : Nat) (p : RuntimeProblem) (tags : List String)
    (cg : Nat) (avail : List String) (c : GuildForumChannel)
    (hch : w.platform.channels cid = some (.forum cg avail))
    (hfc : get_forum_channel w.mgr cg = some c)
    (hp : get_problem_with_frontend_id w.mgr p.problem_frontend_id = some p)
    (hcache : w.mgr.cache_problem_threads w.platform.next_thread_id = none)
    (hdb : ∀ t ∈ w.mgr.db_problem_threads, t.thread_id ≠ w.platform.next_thread_id) :
    create_thread_impl w cid p tags =
      ({ mgr := { w.mgr with
            db_problem_threads :=
              w.mgr.db_problem_threads ++ [⟨w.platform.next_thread_id, p.id, c.id⟩],
            cache_problem_threads := fun k =>
              if k = w.platform.next_thread_id
              then some ⟨w.platform.next_thread_id, p.id, c.id⟩
              else w.mgr.cache_problem_threads k },
          platform :=
            { channels := fun k =>
                if k = w.platform.next_thread_id then some .thread
                else ((canonical_tags.filter (fun t => ¬ avail.contains t)).foldl
                    (fun pf t => create_tag pf cid t) w.platform).channels k,
              next_thread_id := w.platform.next_thread_id + 1 } },
        .ok ⟨w.platform.next_thread_id,
             toString p.problem_frontend_id ++ ". " ++ p.title,
             p.url ++ "\n" ++ (if p.premium then premium_disclaimer else ""),
             avail.filter (fun t =>
               (["LeetCode", get_difficulty_str_repr p.difficulty] : List String).contains t)⟩) := by
  have htid := (foldl_create_tag_spec
      (canonical_tags.filter (fun t => ¬ avail.contains t)) w.platform cid).1
  have hinst : create_thread_instance w.mgr p.problem_frontend_id cg
      w.platform.next_thread_id
      = .ok (some ⟨w.platform.next_thread_id, p.id, c.id⟩) := by
    unfold create_thread_instance
    rw [hfc, hp]
  have hlook : get_thread_by_thread_id
      { w.mgr with db_problem_threads :=
          w.mgr.db_problem_threads ++ [⟨w.platform.next_thread_id, p.id, c.id⟩] }
      w.platform.next_thread_id
      = some ⟨w.platform.next_thread_id, p.id, c.id⟩ := by
    unfold get_thread_by_thread_id
    dsimp only
    rw [hcache]
    rw [List.find?_append]
    rw [List.find?_eq_none.mpr (fun t ht => by simp [hdb t ht])]
    simp
  have hctdb : create_thread_in_db w.mgr p.problem_frontend_id cg
      w.platform.next_thread_id
      = ({ w.mgr with
            db_problem_threads :=
              w.mgr.db_problem_threads ++ [⟨w.platform.next_thread_id, p.id, c.id⟩],
            cache_problem_threads := fun k =>
              if k = w.platform.next_thread_id
              then some ⟨w.platform.next_thread_id, p.id, c.id⟩
              else w.mgr.cache_problem_threads k },
          .ok ()) := by
    simp only [create_thread_in_db, hinst, hlook]
  unfold create_thread_impl
  rw [hch]
  dsimp only
  rw [htid, hctdb]
  rfl

/-- C2: with a configured, valid forum channel and a recorded thread whose
id no longer resolves, reconcile deletes the stale record from the table
and the cache, creates a new thread, records it, returns CREATE — and a
subsequent call, the new thread now live, returns REOPEN with no further
writes. -/
theorem reconcile_stale_thread_recreates
    (w : World) (p : RuntimeProblem) (tags : List String) (g : Nat) (d : Bool)
    (c : GuildForumChannel) (avail : List String) (ft : ProblemThreads)
    (h1 : get_forum_channel w.mgr g = some c)
    (h9 : w.mgr.db_forum_channels.find? (fun x => x.guild_id == g) = some c)
    (h2 : try_get_channel w.platform c.channel_id = some (.forum g avail))
    (h5 : get_problem_with_frontend_id w.mgr p.problem_frontend_id = some p)
    (h10 : w.mgr.db_problem_threads.find?
        (fun t => t.problem_db_id == p.id && t.forum_channel_db_id == c.id) = some ft)
    (h4 : try_get_channel w.platform ft.thread_id = none)
    (h6 : w.platform.channels w.platform.next_thread_id = none)
    (h7 : w.mgr.cache_problem_threads w.platform.next_thread_id = none)
    (h8 : ∀ t ∈ w.mgr.db_problem_threads, t.thread_id ≠ w.platform.next_thread_id)
    (h11 : ∀ t ∈ w.mgr.db_problem_threads,
        t.problem_db_id = p.id → t.forum_channel_db_id = c.id → t = ft)
    (hmap : (w.mgr.db_problem_threads.map (fun t => t.thread_id)).Nodup) :
    ∃ w2 t,
      reopen_or_create_problem_thread w p tags g d = (w2, .ok (.created t, .CREATE)) ∧
      t.thread_id = w.platform.next_thread_id ∧
      ft ∉ w2.mgr.db_problem_threads ∧
      w2.mgr.cache_problem_threads ft.thread_id = none ∧
      (⟨t.thread_id, p.id, c.id⟩ : ProblemThreads) ∈ w2.mgr.db_problem_threads ∧
      w2.mgr.cache_problem_threads t.thread_id = some ⟨t.thread_id, p.id, c.id⟩ ∧
      reopen_or_create_problem_thread w2 p tags g d
        = (w2, .ok (.reopened t.thread_id, .REOPEN)) := by
  have h3 : get_thread_by_problem_id w.mgr p.problem_frontend_id g = some ft := by
    simp only [get_thread_by_problem_id, h5, h9, h10]
  have hftmem : ft ∈ w.mgr.db_problem_threads := List.mem_of_find?_eq_some h10
  have hfttid : ft.thread_id ≠ w.platform.next_thread_id := h8 ft hftmem
  have herase := mem_eraseP_thread_id_unique hmap hftmem
  have hdel : delete_thread_from_db w.mgr ft.thread_id
      = { w.mgr with
          db_problem_threads :=
            w.mgr.db_problem_threads.eraseP (fun t => t.thread_id == ft.thread_id),
          cache_problem_threads := fun k =>
            if k = ft.thread_id then none else w.mgr.cache_problem_threads k } := by
    have hex : ∃ x, w.mgr.db_problem_threads.find?
        (fun t => t.thread_id == ft.thread_id) = some x := by
      rcases hf2 : w.mgr.db_problem_threads.find? (fun t => t.thread_id == ft.thread_id)
          with _ | x
      · exact absurd (List.find?_eq_none.mp hf2 ft hftmem) (by simp)
      · exact ⟨x, hf2⟩
    obtain ⟨x, hf⟩ := hex
    simp only [delete_thread_from_db, hf]
  set mgrd : ManagerState :=
    { w.mgr with
      db_problem_threads :=
        w.mgr.db_problem_threads.eraseP (fun t => t.thread_id == ft.thread_id),
      cache_problem_threads := fun k =>
        if k = ft.thread_id then none else w.mgr.cache_problem_threads k } with hmgrd
  have hcache1 : mgrd.cache_problem_threads w.platform.next_thread_id = none := by
    rw [hmgrd]
    dsimp only
    rw [if_neg (fun he => hfttid he.symm)]
    exact h7
  have hdb1 : ∀ t ∈ mgrd.db_problem_threads,
      t.thread_id ≠ w.platform.next_thread_id := by
    rw [hmgrd]
    dsimp only
    intro t ht
    exact h8 t (herase.2 t ht)
  have hcreate := create_thread_impl_ok ⟨mgrd, w.platform⟩ c.channel_id p tags
    g avail c h2 h1 h5 hcache1 hdb1
  dsimp only at hcreate
  have hmain : reopen_or_create_problem_thread w p tags g d
      = ({ mgr := { mgrd with
              db_problem_threads := mgrd.db_problem_threads ++
                [⟨w.platform.next_thread_id, p.id, c.id⟩],
              cache_problem_threads := fun k =>
                if k = w.platform.next_thread_id
                then some ⟨w.platform.next_thread_id, p.id, c.id⟩
                else mgrd.cache_problem_threads k },
            platform :=
              { channels := fun k =>
                  if k = w.platform.next_thread_id then some .thread
                  else ((canonical_tags.filter (fun t => ¬ avail.contains t)).foldl
                      (fun pf t => create_tag pf c.channel_id t) w.platform).channels k,
                next_thread_id := w.platform.next_thread_id + 1 } },
         .ok (.created ⟨w.platform.next_thread_id,
              toString p.problem_frontend_id ++ ". " ++ p.title,
              p.url ++ "\n" ++ (if p.premium then premium_disclaimer else ""),
              avail.filter (fun t =>
                (["LeetCode", get_difficulty_str_repr p.difficulty] : List String).contains t)⟩,
            .CREATE)) := by
    simp only [reopen_or_create_problem_thread, h1, h2, h3, h4]
    rw [hdel]
    rw [hcreate]
    rfl
  refine ⟨_, _, hmain, rfl, ?_, ?_, ?_, ?_, ?_⟩
  · -- the stale row is gone from the table
    intro hmem
    dsimp only at hmem
    rcases List.mem_append.mp hmem with hin | hin
    · exact herase.1 hin
    · have he : ft = ⟨w.platform.next_thread_id, p.id, c.id⟩ := List.mem_singleton.mp hin
      exact hfttid (congrArg ProblemThreads.thread_id he)
  · -- the stale row is gone from the cache
    dsimp only
    rw [if_neg hfttid]
    rw [if_pos rfl]
  · -- the new row is recorded in the table
    exact List.mem_append_right _ (List.mem_singleton.mpr rfl)
  · -- the new row is recorded in the cache
    dsimp only
    rw [if_pos rfl]
  · -- a second call reopens the new thread
    have hne_cid : c.channel_id ≠ w.platform.next_thread_id := by
      intro he
      rw [he] at h2
      simp only [try_get_channel] at h2
      rw [h6] at h2
      exact Option.noConfusion h2
    obtain ⟨ts2, hts2⟩ := (foldl_create_tag_spec
        (canonical_tags.filter (fun t => ¬ avail.contains t))
        w.platform c.channel_id).2.2 g avail (by simpa [try_get_channel] using h2)
    have hq : (mgrd.db_problem_threads ++
          [(⟨w.platform.next_thread_id, p.id, c.id⟩ : ProblemThreads)]).find?
        (fun t => t.problem_db_id == p.id && t.forum_channel_db_id == c.id)
        = some ⟨w.platform.next_thread_id, p.id, c.id⟩ := by
      rw [List.find?_append]
      rw [List.find?_eq_none.mpr ?noq]
      · simp
      case noq =>
        intro t ht hq2
        rw [Bool.and_eq_true, beq_iff_eq, beq_iff_eq] at hq2
        rw [hmgrd] at ht
        dsimp only at ht
        have htw : t ∈ w.mgr.db_problem_threads := herase.2 t ht
        have hteq : t = ft := h11 t htw hq2.1 hq2.2
        rw [hteq] at ht
        exact herase.1 ht
    exact reopen_of_live_thread _ p tags g d c g ts2 ⟨w.platform.next_thread_id, p.id, c.id⟩
      h1
      (by
        show (if c.channel_id = w.platform.next_thread_id then some PlatformChannel.thread
          else _) = _
        rw [if_neg hne_cid]
        exact hts2)
      (by
        unfold get_thread_by_problem_id
        rw [show get_problem_with_frontend_id
            { mgrd with
              db_problem_threads := mgrd.db_problem_threads ++
                [⟨w.platform.next_thread_id, p.id, c.id⟩],
              cache_problem_threads := fun k =>
                if k = w.platform.next_thread_id
                then some ⟨w.platform.next_thread_id, p.id, c.id⟩
                else mgrd.cache_problem_threads k } p.problem_frontend_id = some p from h5]
        rw [show ({ mgrd with
              db_problem_threads := mgrd.db_problem_threads ++
                [⟨w.platform.next_thread_id, p.id, c.id⟩],
              cache_problem_threads := fun k =>
                if k = w.platform.next_thread_id
                then some ⟨w.platform.next_thread_id, p.id, c.id⟩
                else mgrd.cache_problem_threads k } : ManagerState).db_forum_channels.find?
            (fun x => x.guild_id == g) = some c from h9]
        dsimp only
        exact hq)
      (by
        show (if w.platform.next_thread_id = w.platform.next_thread_id
          then some PlatformChannel.thread else _) = _
        rw [if_pos rfl])

/-- Witness for C2: in the stale-thread world, reconciling deletes record
500 from table and cache, records the freshly created thread 1000, returns
CREATE, and a second call reopens thread 1000. -/
theorem reconcile_stale_thread_recreates_witness :
    ∃ w2 t,
      reopen_or_create_problem_thread worldStale pTwoSum [] 42 true
        = (w2, .ok (.created t, .CREATE)) ∧
      t.thread_id = worldStale.platform.next_thread_id ∧
      ptRow ∉ w2.mgr.db_problem_threads ∧
      w2.mgr.cache_problem_threads ptRow.thread_id = none ∧
      (⟨t.thread_id, pTwoSum.id, fcRow.id⟩ : ProblemThreads) ∈ w2.mgr.db_problem_threads ∧
      w2.mgr.cache_problem_threads t.thread_id
        = some ⟨t.thread_id, pTwoSum.id, fcRow.id⟩ ∧
      reopen_or_create_problem_thread w2 pTwoSum [] 42 true
        = (w2, .ok (.reopened t.thread_id, .REOPEN)) :=
  reconcile_stale_thread_recreates worldStale pTwoSum [] 42 true fcRow canonical_tags
    ptRow rfl rfl rfl rfl rfl rfl rfl rfl
    (fun t ht => by rw [List.mem_singleton.mp ht]; decide)
    (fun t ht _ _ => List.mem_singleton.mp ht)
    (by decide)
